import Mathlib

/-!
Shallow embedding of the orchestration core of the logistics-agents repository:
the inventory data model (`src/logistics_agents/models/inventory_data.py`) and
the two orchestrator tools `coordinate_workflow_steps`
(`agents/agent_05_orchestrator/tools/agent_coordinator.py`) and
`create_executive_summary`
(`agents/agent_05_orchestrator/tools/result_synthesizer.py`).

Conventions: Python ints are `Int`/`Nat`, Python float literals (0.5, 0.8,
0.15, ...) are modelled as the exact rationals they denote, float arithmetic
is exact `ℚ` arithmetic, and a Python `ZeroDivisionError` is modelled by an
`Except` error value.  Report strings are modelled as structures holding every
context-dependent value interpolated into the Python f-string; the surrounding
constant text is omitted, so equality of the structures corresponds to
equality of the emitted strings.
-/

namespace LogisticsAgents

/-- Python `int(x)` applied to a rational value: truncation toward zero. -/
def pyInt (q : ℚ) : Int := if 0 ≤ q then ⌊q⌋ else ⌈q⌉

/-- `InventoryItem` (dataclass in `models/inventory_data.py`), restricted to the
fields read by the two orchestrator tools: `current_stock`, `order_quantity`,
`unit_cost`, `reorder_threshold` (plus the identifying `item_id`).  The other
fields (category, supplier, shipping, ...) are never read by the code under
verification. -/
structure InventoryItem where
  item_id : String
  current_stock : Int
  order_quantity : Int
  unit_cost : ℚ
  reorder_threshold : Int
  deriving Repr, DecidableEq

/-- Construction of an `InventoryItem`, including `__post_init__`: when no
`reorder_threshold` is supplied, it is set to
`max(10, int(self.order_quantity * 0.2))`. -/
def InventoryItem.make (item_id : String) (current_stock order_quantity : Int)
    (unit_cost : ℚ) (reorder_threshold? : Option Int) : InventoryItem :=
  { item_id := item_id
    current_stock := current_stock
    order_quantity := order_quantity
    unit_cost := unit_cost
    reorder_threshold :=
      match reorder_threshold? with
      | some t => t
      | none => max 10 (pyInt ((order_quantity : ℚ) * (2/10))) }

/-- `InventoryItem.is_below_threshold`: `current_stock <= (reorder_threshold or 0)`.
After construction `reorder_threshold` is always an int; `x or 0` maps `0` to
`0`, so the comparison is against the stored value. -/
def InventoryItem.is_below_threshold (i : InventoryItem) : Prop :=
  i.current_stock ≤ i.reorder_threshold

instance (i : InventoryItem) : Decidable i.is_below_threshold := by
  unfold InventoryItem.is_below_threshold; infer_instance

/-- `InventoryContext` (pydantic model), restricted to the `items` field: the
orchestrator tools read nothing else from the context. -/
structure InventoryContext where
  items : List InventoryItem
  deriving Repr, DecidableEq

/-- The `validate_items` field validator: raises `ValueError` on an empty
items list, otherwise returns the list unchanged. -/
def validate_items (v : List InventoryItem) : Except String (List InventoryItem) :=
  if v.isEmpty then .error "Items list cannot be empty" else .ok v

/-- `InventoryContext.items_below_threshold`. -/
def InventoryContext.items_below_threshold (ctx : InventoryContext) : List InventoryItem :=
  ctx.items.filter fun i => i.current_stock ≤ i.reorder_threshold

/-! ## agent_coordinator.py -/

/-- The `agent_dependencies` dict literal in `coordinate_workflow_steps`. -/
def agentDependencies : List (String × List String) :=
  [("threshold_monitor", []),
   ("priority_classifier", ["threshold_monitor"]),
   ("supplier_matcher", []),
   ("demand_forecaster", []),
   ("route_calculator", ["threshold_monitor"]),
   ("quantity_optimizer", ["threshold_monitor", "demand_forecaster"]),
   ("delivery_scheduler", ["route_calculator"]),
   ("order_optimizer", ["quantity_optimizer", "supplier_matcher"]),
   ("result_synthesizer", ["quantity_optimizer", "route_calculator", "order_optimizer"])]

/-- The `parallel_groups` list literal in `coordinate_workflow_steps`. -/
def parallelGroups : List (List String) :=
  [["threshold_monitor", "supplier_matcher", "demand_forecaster"],
   ["priority_classifier", "route_calculator"],
   ["quantity_optimizer", "delivery_scheduler"],
   ["order_optimizer"],
   ["result_synthesizer"]]

/-- `critical_items`: the number of items with
`current_stock <= reorder_threshold * 0.5`. -/
def criticalItemCount (ctx : InventoryContext) : Nat :=
  (ctx.items.filter fun i =>
    (i.current_stock : ℚ) ≤ (i.reorder_threshold : ℚ) * (5/10)).length

/-- `urgent_items`: the number of items with
`current_stock <= reorder_threshold * 0.8`. -/
def urgentItemCount (ctx : InventoryContext) : Nat :=
  (ctx.items.filter fun i =>
    (i.current_stock : ℚ) ≤ (i.reorder_threshold : ℚ) * (8/10)).length

/-- The three workflow strategies emitted by `coordinate_workflow_steps`. -/
inductive WorkflowStrategy where
  | urgentParallelResponse
  | balancedParallel
  | optimizationFocused
  deriving Repr, DecidableEq

/-- The strategy branch of `coordinate_workflow_steps`:
`critical_items > total_items * 0.15`, then `urgent_items > total_items * 0.30`,
else the optimization-focused default. -/
def workflowStrategy (ctx : InventoryContext) : WorkflowStrategy :=
  if (criticalItemCount ctx : ℚ) > (ctx.items.length : ℚ) * (15/100) then
    .urgentParallelResponse
  else if (urgentItemCount ctx : ℚ) > (ctx.items.length : ℚ) * (30/100) then
    .balancedParallel
  else
    .optimizationFocused

/-- The `coordination_pattern` string chosen in the same branch. -/
def coordinationPattern : WorkflowStrategy → String
  | .urgentParallelResponse => "Emergency parallel execution with real-time validation"
  | .balancedParallel => "Optimized parallel processing with quality gates"
  | .optimizationFocused => "Full parallel analysis with performance optimization"

/-- `sequential_time_estimate = len(agent_dependencies) * 2.5`. -/
def sequentialTimeEstimate : ℚ := (agentDependencies.length : ℚ) * (25/10)

/-- `parallel_time_estimate = len(parallel_groups) * 3.0`. -/
def parallelTimeEstimate : ℚ := (parallelGroups.length : ℚ) * 3

/-- `efficiency_improvement`. -/
def efficiencyImprovement : ℚ :=
  (sequentialTimeEstimate - parallelTimeEstimate) / sequentialTimeEstimate * 100

/-- The `business_risk_factors` list built from the below-threshold count. -/
def businessRiskFactors (ctx : InventoryContext) : List String :=
  (if (ctx.items_below_threshold.length : ℚ) > (ctx.items.length : ℚ) * (10/100) then
    ["🔴 HIGH stockout risk - >10% items critical"] else []) ++
  (if (ctx.items_below_threshold.length : ℚ) > (ctx.items.length : ℚ) * (5/100) then
    ["🟡 MEDIUM supply chain stress"] else [])

/-- The `performance_risk_factors` list (depends only on constants). -/
def performanceRiskFactors : List String :=
  (if parallelGroups.length > 3 then
    ["⚡ Complex coordination - monitor sync points"] else []) ++
  (if efficiencyImprovement < 30 then
    ["📊 Limited parallelization benefits"] else [])

/-- The context-dependent content of the string returned by
`coordinate_workflow_steps`. -/
structure CoordinatorReport where
  total_items : Nat
  below_threshold : Nat
  workflow_strategy : WorkflowStrategy
  coordination_pattern : String
  business_risk_factors : List String
  performance_risk_factors : List String
  deriving Repr, DecidableEq

/-- `coordinate_workflow_steps`, as the record of every context-dependent value
interpolated into its result string. -/
def coordinateWorkflowSteps (ctx : InventoryContext) : CoordinatorReport :=
  { total_items := ctx.items.length
    below_threshold := ctx.items_below_threshold.length
    workflow_strategy := workflowStrategy ctx
    coordination_pattern := coordinationPattern (workflowStrategy ctx)
    business_risk_factors := businessRiskFactors ctx
    performance_risk_factors := performanceRiskFactors }

/-! ## result_synthesizer.py -/

/-- The `validation_results` dict literal in `create_executive_summary`. -/
def validationResults : List (String × ℚ) :=
  [("quantity_route_alignment", 92),
   ("cost_benefit_optimization", 88),
   ("supplier_capacity_validation", 95),
   ("timeline_feasibility", 85),
   ("demand_forecast_accuracy", 90),
   ("consolidation_efficiency", 93)]

/-- The `confidence_weights` dict literal in `create_executive_summary`. -/
def confidenceWeights : List (String × ℚ) :=
  [("quantity_route_alignment", 20/100),
   ("cost_benefit_optimization", 18/100),
   ("supplier_capacity_validation", 15/100),
   ("timeline_feasibility", 17/100),
   ("demand_forecast_accuracy", 15/100),
   ("consolidation_efficiency", 15/100)]

/-- Dict lookup `d[k]` on the association lists above (all lookups in the
source hit a present key). -/
def lookupQ (l : List (String × ℚ)) (k : String) : ℚ :=
  ((l.find? fun p => p.1 = k).map Prod.snd).getD 0

/-- `overall_confidence = sum(validation_results[metric] * weight for metric,
weight in confidence_weights.items())`. -/
def overallConfidence : ℚ :=
  (confidenceWeights.map fun p => lookupQ validationResults p.1 * p.2).sum

/-- `estimated_restock_cost = sum(item.unit_cost * item.order_quantity for item
in context.items_below_threshold)`. -/
def estimatedRestockCost (ctx : InventoryContext) : ℚ :=
  (ctx.items_below_threshold.map fun i => i.unit_cost * (i.order_quantity : ℚ)).sum

/-- `projected_savings = estimated_restock_cost * 0.15`. -/
def projectedSavings (ctx : InventoryContext) : ℚ :=
  estimatedRestockCost ctx * (15/100)

/-- The only exception `create_executive_summary` can raise on a validated
context: Python `ZeroDivisionError`. -/
inductive SynthError where
  | divisionByZero
  deriving Repr, DecidableEq

/-- The context-dependent content of the string returned by
`create_executive_summary`. -/
structure SynthReport where
  overall_confidence : ℚ
  projected_savings : ℚ
  savings_reduction_pct : ℚ
  risk_reduction : ℚ
  suppliers_involved : Nat
  total_items : Nat
  below_threshold : Nat
  critical_count : Nat
  urgent_count : Nat
  deriving Repr, DecidableEq

/-- `create_executive_summary`.  Two divisions by a context-dependent value
occur: `risk_reduction = min(85, (total_items - below_threshold) / total_items
* 100)` divides by `total_items`, and the dashboard string divides
`projected_savings / estimated_restock_cost`; each raises `ZeroDivisionError`
when its divisor is zero (`total_items` is checked first, in source order).
`suppliers_involved = min(4, len(items_below_threshold) // 5 + 1)`. -/
def createExecutiveSummary (ctx : InventoryContext) : Except SynthError SynthReport :=
  let total := ctx.items.length
  let below := ctx.items_below_threshold.length
  if total = 0 then .error .divisionByZero
  else if estimatedRestockCost ctx = 0 then .error .divisionByZero
  else .ok
    { overall_confidence := overallConfidence
      projected_savings := projectedSavings ctx
      savings_reduction_pct := projectedSavings ctx / estimatedRestockCost ctx * 100
      risk_reduction := min 85 (((total : ℚ) - (below : ℚ)) / (total : ℚ) * 100)
      suppliers_involved := min 4 (below / 5 + 1)
      total_items := total
      below_threshold := below
      critical_count := criticalItemCount ctx
      urgent_count := urgentItemCount ctx }

/-! ## Topological levels of the declared dependency graph

`coordinate_workflow_steps` declares its schedule as the literal
`parallelGroups`; the spec describes the schedule as the topological level
ordering of `agentDependencies`.  The following definitions are the spec-side
formalisation of "level" (level 0 for dependency-free tasks, otherwise
1 + the maximum level of the dependencies); every entry of
`agentDependencies` only references earlier entries, so a left fold computes
the levels. -/

/-- Level of a named task in a partially built level table (0 for a missing
name, which never occurs on the declared graph). -/
def depLevel (acc : List (String × Nat)) (d : String) : Nat :=
  ((acc.find? fun q => q.1 = d).map Prod.snd).getD 0

/-- Level table of a dependency list whose entries reference earlier
entries. -/
def computeLevels (g : List (String × List String)) : List (String × Nat) :=
  g.foldl (fun acc p =>
    acc ++ [(p.1,
      match p.2 with
      | [] => 0
      | ds => 1 + (ds.map (depLevel acc)).foldl max 0)]) []

/-- Length of the longest dependency chain: the largest level. -/
def longestChainLength (g : List (String × List String)) : Nat :=
  (computeLevels g).foldl (fun m p => max m p.2) 0

/-- Level of one task of the graph. -/
def levelOf (g : List (String × List String)) (n : String) : Nat :=
  depLevel (computeLevels g) n

/-- Index of the parallel group containing a task, if any. -/
def groupIndexOf (n : String) : Option Nat :=
  parallelGroups.findIdx? fun grp => grp.contains n

/-! ## Concrete contexts used as witnesses and counterexamples -/

/-- A stable item: stock 100 against the auto-computed threshold
`max(10, int(50 * 0.2)) = 10`. -/
def itemStable : InventoryItem :=
  InventoryItem.make "SKU_STABLE" 100 50 4 none

/-- A critical item: stock 5 against threshold 10 (5 ≤ 10 · 0.5). -/
def itemCritical : InventoryItem :=
  InventoryItem.make "SKU_CRIT" 5 50 4 none

/-- A below-threshold but non-critical item: stock 8 against threshold 10. -/
def itemLow : InventoryItem :=
  InventoryItem.make "SKU_LOW" 8 50 4 none

/-- Scenario B of the spec: 10 items, 2 of them critical (20%). -/
def ctxScenarioB : InventoryContext :=
  { items := [itemCritical, itemCritical, itemStable, itemStable, itemStable,
              itemStable, itemStable, itemStable, itemStable, itemStable] }

/-- 10 items, none critical, 2 merely below threshold. -/
def ctxLowNoCritical : InventoryContext :=
  { items := [itemLow, itemLow, itemStable, itemStable, itemStable,
              itemStable, itemStable, itemStable, itemStable, itemStable] }

/-- One item below its (auto-computed) threshold: stock 5, order quantity 10,
threshold `max(10, int(10 * 0.2)) = 10`, unit cost 3. -/
def ctxOneBelow : InventoryContext :=
  { items := [InventoryItem.make "SKU_B" 5 10 3 none] }

/-- One item below threshold whose unit cost is 0. -/
def ctxZeroCost : InventoryContext :=
  { items := [InventoryItem.make "SKU_Z" 5 10 0 none] }

/-- One stable item only: nothing is below threshold. -/
def ctxAllStable : InventoryContext :=
  { items := [itemStable] }

/-! ## Spec-side definitions for refinement claims -/

/-- The spec's `selectStrategy`, stated with ratios as the spec words it:
`criticalCount / totalItems > 0.15`, then `urgentCount / totalItems > 0.30`,
else the optimization-focused default. -/
def selectStrategySpec (criticalCount urgentCount totalItems : Nat) : WorkflowStrategy :=
  if (criticalCount : ℚ) / (totalItems : ℚ) > 15/100 then .urgentParallelResponse
  else if (urgentCount : ℚ) / (totalItems : ℚ) > 30/100 then .balancedParallel
  else .optimizationFocused

/-- The spec's financial-exposure formula: Σ unitCost × orderQuantity over
items with `current stock ≤ 0.2 × orderQuantity`. -/
def specFinancialExposure (ctx : InventoryContext) : ℚ :=
  ((ctx.items.filter fun i =>
    (i.current_stock : ℚ) ≤ (i.order_quantity : ℚ) * (2/10)).map fun i =>
      i.unit_cost * (i.order_quantity : ℚ)).sum

/-- The tasks the literal `parallelGroups` places one group later than their
topological level in `agentDependencies`. -/
def lateTasks : List String :=
  ["quantity_optimizer", "order_optimizer", "result_synthesizer"]

/-! ## Theorems -/

/-- C1: for every non-empty inventory context the strategy branch of
`coordinate_workflow_steps` agrees with the spec's first-match-wins ratio
thresholds: criticalCount/totalItems > 0.15 gives UrgentParallelResponse,
otherwise urgentCount/totalItems > 0.30 gives BalancedParallel, otherwise
OptimizationFocused, with criticalCount and urgentCount the counts of items at
or under 0.5× resp. 0.8× their reorder threshold. -/
theorem workflow_strategy_matches_spec_thresholds (ctx : InventoryContext)
    (h : ctx.items ≠ []) :
    workflowStrategy ctx =
      selectStrategySpec (criticalItemCount ctx) (urgentItemCount ctx)
        ctx.items.length := by
  have ht : (0 : ℚ) < (ctx.items.length : ℚ) := by
    exact_mod_cast List.length_pos.mpr h
  have h1 : ((criticalItemCount ctx : ℚ) / (ctx.items.length : ℚ) > 15/100) ↔
      ((criticalItemCount ctx : ℚ) > (ctx.items.length : ℚ) * (15/100)) := by
    rw [gt_iff_lt, lt_div_iff₀ ht, gt_iff_lt, mul_comm]
  have h2 : ((urgentItemCount ctx : ℚ) / (ctx.items.length : ℚ) > 30/100) ↔
      ((urgentItemCount ctx : ℚ) > (ctx.items.length : ℚ) * (30/100)) := by
    rw [gt_iff_lt, lt_div_iff₀ ht, gt_iff_lt, mul_comm]
  unfold workflowStrategy selectStrategySpec
  simp only [h1, h2]

/-- C1 witness: at Scenario B's context (10 items, 2 critical) the strategy
branch and the spec thresholds agree. -/
theorem workflow_strategy_matches_spec_thresholds_witness :
    ctxScenarioB.items ≠ [] ∧
    workflowStrategy ctxScenarioB =
      selectStrategySpec (criticalItemCount ctxScenarioB) (urgentItemCount ctxScenarioB)
        ctxScenarioB.items.length :=
  ⟨by simp [ctxScenarioB],
   workflow_strategy_matches_spec_thresholds ctxScenarioB (by simp [ctxScenarioB])⟩

/-- C2 counterexample: the emitted plan has 5 groups while 1 + the longest
dependency chain of `agent_dependencies` is 4, and `quantity_optimizer`
(whose dependencies both have level 0) is not placed in the group of index
1 + 0 = 1. -/
theorem parallel_groups_not_level_ordering :
    parallelGroups.length ≠ 1 + longestChainLength agentDependencies ∧
    groupIndexOf "quantity_optimizer" ≠
      some (1 + max (levelOf agentDependencies "threshold_monitor")
        (levelOf agentDependencies "demand_forecaster")) := by decide

/-- C2 amended: the emitted plan has 2 + longest-chain-length groups (one more
than the level ordering's count), and each task sits exactly at its
topological level except `quantity_optimizer`, `order_optimizer` and
`result_synthesizer`, which sit one group later. -/
theorem parallel_groups_level_offset :
    parallelGroups.length = 2 + longestChainLength agentDependencies ∧
    (agentDependencies.all fun p =>
      groupIndexOf p.1 == some (levelOf agentDependencies p.1 +
        (if lateTasks.contains p.1 then 1 else 0))) = true := by decide

/-- C3: the parallel groups partition the declared task set (each declared
task occurs exactly once in the concatenation of the groups, and the
concatenation has no extra entries), and every task's group index is strictly
greater than the group index of each of its declared dependencies. -/
theorem parallel_groups_partition_and_respect_dependencies :
    (agentDependencies.all fun p =>
      (parallelGroups.foldl (· ++ ·) []).count p.1 == 1) = true ∧
    (parallelGroups.foldl (· ++ ·) []).length = agentDependencies.length ∧
    (agentDependencies.all fun p => p.2.all fun d =>
      match groupIndexOf p.1, groupIndexOf d with
      | some i, some j => decide (j < i)
      | _, _ => false) = true := by decide

/-- Helper: a filtered map-sum equals the sum of guarded terms over the whole
list. -/
theorem sum_map_filter_eq_sum_ite (l : List InventoryItem)
    (p : InventoryItem → Bool) (f : InventoryItem → ℚ) :
    ((l.filter p).map f).sum = (l.map fun i => if p i then f i else 0).sum := by
  induction l with
  | nil => rfl
  | cons a t ih =>
    by_cases h : p a <;> simp [List.filter_cons, h, ih]

/-- C4 counterexample: on the single-item context with stock 5, order
quantity 10 and unit cost 3 — whose auto-computed reorder threshold is
`max(10, int(10·0.2)) = 10` — the code's estimated restock cost is 30 (the
item is at or under its threshold), while the spec's filter
`stock ≤ 0.2·orderQuantity` (5 ≤ 2) excludes the item, giving 0. -/
theorem restock_cost_ne_spec_exposure :
    estimatedRestockCost ctxOneBelow ≠ specFinancialExposure ctxOneBelow := by
  norm_num [estimatedRestockCost, specFinancialExposure, ctxOneBelow,
    InventoryContext.items_below_threshold, InventoryItem.make, pyInt]

/-- C4 amended: for every item collection, the estimated restock cost equals
the sum of unitCost × orderQuantity over exactly those items whose current
stock is at or under their reorder threshold (not 0.2 × orderQuantity). -/
theorem restock_cost_eq_below_threshold_sum (ctx : InventoryContext) :
    estimatedRestockCost ctx =
      (ctx.items.map fun i =>
        if i.current_stock ≤ i.reorder_threshold then
          i.unit_cost * (i.order_quantity : ℚ)
        else 0).sum := by
  obtain ⟨l⟩ := ctx
  unfold estimatedRestockCost InventoryContext.items_below_threshold
  simpa using sum_map_filter_eq_sum_ite l
    (fun i => decide (i.current_stock ≤ i.reorder_threshold))
    (fun i => i.unit_cost * (i.order_quantity : ℚ))

/-- C5 counterexample: on a context of 10 items with 2 below threshold but
none critical, the coordinator's HIGH business-risk flag is emitted even
though the critical ratio is 0, not above 0.15 — so the highest impact level
is not computed from the criticalCount ratio with the strategy selector's
bands. -/
theorem high_risk_flag_without_critical_items :
    "🔴 HIGH stockout risk - >10% items critical" ∈
      (coordinateWorkflowSteps ctxLowNoCritical).business_risk_factors ∧
    criticalItemCount ctxLowNoCritical = 0 ∧
    ¬((criticalItemCount ctxLowNoCritical : ℚ) >
      (ctxLowNoCritical.items.length : ℚ) * (15/100)) := by
  refine ⟨?_, ?_, ?_⟩ <;>
    norm_num [coordinateWorkflowSteps, businessRiskFactors, criticalItemCount,
      ctxLowNoCritical, itemLow, itemStable, InventoryItem.make, pyInt,
      InventoryContext.items_below_threshold]

/-- C5 amended: the coordinator's HIGH business-risk flag is governed by the
below-threshold ratio with a >10% band (not by the criticalCount ratio with
the strategy selector's >15% band); the scenario part of the claim holds: for
10 items of which 2 are critical the strategy is UrgentParallelResponse and
the HIGH flag is present (critical items are in particular below
threshold). -/
theorem high_risk_flag_iff_below_ratio (ctx : InventoryContext) :
    ("🔴 HIGH stockout risk - >10% items critical" ∈
        (coordinateWorkflowSteps ctx).business_risk_factors ↔
      (ctx.items_below_threshold.length : ℚ) > (ctx.items.length : ℚ) * (10/100)) ∧
    workflowStrategy ctxScenarioB = .urgentParallelResponse ∧
    "🔴 HIGH stockout risk - >10% items critical" ∈
      (coordinateWorkflowSteps ctxScenarioB).business_risk_factors := by
  refine ⟨?_, ?_, ?_⟩
  · unfold coordinateWorkflowSteps businessRiskFactors
    by_cases h1 : (ctx.items_below_threshold.length : ℚ) >
        (ctx.items.length : ℚ) * (10/100) <;>
      by_cases h2 : (ctx.items_below_threshold.length : ℚ) >
          (ctx.items.length : ℚ) * (5/100) <;>
      simp [h1, h2]
  · norm_num [workflowStrategy, criticalItemCount, urgentItemCount, ctxScenarioB,
      itemCritical, itemStable, InventoryItem.make, pyInt]
  · norm_num [coordinateWorkflowSteps, businessRiskFactors, ctxScenarioB,
      itemCritical, itemStable, InventoryItem.make, pyInt,
      InventoryContext.items_below_threshold]

/-- Helper: the six dict lookups performed by the confidence sum. -/
theorem validation_lookups :
    lookupQ validationResults "quantity_route_alignment" = 92 ∧
    lookupQ validationResults "cost_benefit_optimization" = 88 ∧
    lookupQ validationResults "supplier_capacity_validation" = 95 ∧
    lookupQ validationResults "timeline_feasibility" = 85 ∧
    lookupQ validationResults "demand_forecast_accuracy" = 90 ∧
    lookupQ validationResults "consolidation_efficiency" = 93 :=
  ⟨rfl, rfl, rfl, rfl, rfl, rfl⟩

/-- Helper: the weighted confidence sum evaluates to 90.39. -/
theorem overallConfidence_eq : overallConfidence = 9039/100 := by
  have h := validation_lookups
  simp only [overallConfidence, confidenceWeights, List.map, List.sum_cons,
    List.sum_nil]
  rw [h.1, h.2.1, h.2.2.1, h.2.2.2.1, h.2.2.2.2.1, h.2.2.2.2.2]
  norm_num

/-- C6: for every non-empty item collection the declared confidence weights
sum to 1 and the weighted confidence value computed by
`create_executive_summary` lies in [0, 100]; whenever the summary is produced,
its confidence field is that value. -/
theorem overall_confidence_in_range (ctx : InventoryContext) (h : ctx.items ≠ []) :
    (confidenceWeights.map Prod.snd).sum = 1 ∧
    0 ≤ overallConfidence ∧ overallConfidence ≤ 100 ∧
    ∀ r, createExecutiveSummary ctx = .ok r → r.overall_confidence = overallConfidence := by
  refine ⟨by norm_num [confidenceWeights], ?_, ?_, ?_⟩
  · rw [overallConfidence_eq]; norm_num
  · rw [overallConfidence_eq]; norm_num
  · intro r hr
    unfold createExecutiveSummary at hr
    by_cases h0 : ctx.items.length = 0
    · simp [h0] at hr
    · by_cases hrc : estimatedRestockCost ctx = 0
      · simp [h0, hrc] at hr
      · simp only [h0, hrc, if_false, if_neg, Except.ok.injEq] at hr
        rw [← hr]

/-- C6 witness: the bounds instantiated at Scenario B's context. -/
theorem overall_confidence_in_range_witness :
    ctxScenarioB.items ≠ [] ∧ 0 ≤ overallConfidence ∧ overallConfidence ≤ 100 :=
  ⟨by simp [ctxScenarioB],
   (overall_confidence_in_range ctxScenarioB (by simp [ctxScenarioB])).2.1,
   (overall_confidence_in_range ctxScenarioB (by simp [ctxScenarioB])).2.2.1⟩

/-- C7: the context's `validate_items` validator rejects the empty item list
with the invalid-input error (so construction aborts before any orchestration
step), and accepts every non-empty list unchanged. -/
theorem empty_items_rejected_nonempty_accepted :
    validate_items [] = .error "Items list cannot be empty" ∧
    ∀ l : List InventoryItem, l ≠ [] → validate_items l = .ok l := by
  refine ⟨rfl, fun l hl => ?_⟩
  cases l with
  | nil => exact absurd rfl hl
  | cons a t => rfl

/-- C7 witness: a one-item list passes validation unchanged. -/
theorem empty_items_rejected_nonempty_accepted_witness :
    [itemStable] ≠ ([] : List InventoryItem) ∧
    validate_items [itemStable] = .ok [itemStable] :=
  ⟨by simp, empty_items_rejected_nonempty_accepted.2 [itemStable] (by simp)⟩

/-- C8: orchestration is deterministic — equal unmutated contexts produce
equal coordinator reports and equal synthesized summaries, and the selected
strategy depends only on (criticalCount, urgentCount, totalItems). -/
theorem orchestration_deterministic :
    (∀ c1 c2 : InventoryContext, c1 = c2 →
      coordinateWorkflowSteps c1 = coordinateWorkflowSteps c2 ∧
      createExecutiveSummary c1 = createExecutiveSummary c2) ∧
    (∀ c1 c2 : InventoryContext,
      criticalItemCount c1 = criticalItemCount c2 →
      urgentItemCount c1 = urgentItemCount c2 →
      c1.items.length = c2.items.length →
      workflowStrategy c1 = workflowStrategy c2) := by
  constructor
  · rintro c1 c2 rfl
    exact ⟨rfl, rfl⟩
  · intro c1 c2 h1 h2 h3
    unfold workflowStrategy
    rw [h1, h2, h3]

/-- C8 witness: both parts instantiated at Scenario B's context. -/
theorem orchestration_deterministic_witness :
    coordinateWorkflowSteps ctxScenarioB = coordinateWorkflowSteps ctxScenarioB ∧
    createExecutiveSummary ctxScenarioB = createExecutiveSummary ctxScenarioB ∧
    workflowStrategy ctxScenarioB = workflowStrategy ctxScenarioB :=
  ⟨(orchestration_deterministic.1 ctxScenarioB ctxScenarioB rfl).1,
   (orchestration_deterministic.1 ctxScenarioB ctxScenarioB rfl).2,
   orchestration_deterministic.2 ctxScenarioB ctxScenarioB rfl rfl rfl⟩

/-- C9 counterexample: a context with one item at or under its reorder
threshold but with unit cost 0 still makes the savings-percentage divisor
zero, so `create_executive_summary` hits the division by zero — refuting
"for every context with at least one item below threshold that division is
well-defined". -/
theorem below_threshold_item_still_divides_by_zero :
    ctxZeroCost.items_below_threshold ≠ [] ∧
    createExecutiveSummary ctxZeroCost = .error .divisionByZero := by
  constructor
  · norm_num [ctxZeroCost, InventoryContext.items_below_threshold,
      InventoryItem.make, pyInt]
  · norm_num [createExecutiveSummary, ctxZeroCost, estimatedRestockCost,
      InventoryContext.items_below_threshold, InventoryItem.make, pyInt]

/-- Helper: an empty below-threshold list forces a zero restock cost. -/
theorem restock_cost_zero_of_below_empty (ctx : InventoryContext)
    (h : ctx.items_below_threshold = []) : estimatedRestockCost ctx = 0 := by
  unfold estimatedRestockCost
  rw [h]
  rfl

/-- C9 amended: `create_executive_summary` raises the division-by-zero error
exactly when the estimated restock cost (the sum of unitCost × orderQuantity
over below-threshold items) is zero; in particular it always does so when no
item is at or below its reorder threshold, but a below-threshold item does not
guarantee a nonzero divisor. -/
theorem summary_division_by_zero_iff (ctx : InventoryContext) :
    (ctx.items_below_threshold = [] →
      createExecutiveSummary ctx = .error .divisionByZero) ∧
    (createExecutiveSummary ctx = .error .divisionByZero ↔
      estimatedRestockCost ctx = 0) := by
  have hiff : createExecutiveSummary ctx = .error .divisionByZero ↔
      estimatedRestockCost ctx = 0 := by
    unfold createExecutiveSummary
    by_cases h0 : ctx.items.length = 0
    · have hnil : ctx.items = [] := List.length_eq_zero.mp h0
      have hb : ctx.items_below_threshold = [] := by
        unfold InventoryContext.items_below_threshold
        rw [hnil]
        rfl
      simp [h0, restock_cost_zero_of_below_empty ctx hb]
    · by_cases hr : estimatedRestockCost ctx = 0
      · simp [h0, hr]
      · simp [h0, hr]
  exact ⟨fun hb => hiff.mpr (restock_cost_zero_of_below_empty ctx hb), hiff⟩

/-- C9 witness: a context with no below-threshold item hits the error, and a
context with a nonzero restock cost does not. -/
theorem summary_division_by_zero_iff_witness :
    ctxAllStable.items_below_threshold = ([] : List InventoryItem) ∧
    createExecutiveSummary ctxAllStable = .error .divisionByZero ∧
    estimatedRestockCost ctxScenarioB ≠ 0 ∧
    createExecutiveSummary ctxScenarioB ≠ .error .divisionByZero := by
  have hb : ctxAllStable.items_below_threshold = [] := by
    norm_num [ctxAllStable, InventoryContext.items_below_threshold,
      itemStable, InventoryItem.make, pyInt]
  have hr : estimatedRestockCost ctxScenarioB ≠ 0 := by
    norm_num [estimatedRestockCost, ctxScenarioB, itemCritical, itemStable,
      InventoryContext.items_below_threshold, InventoryItem.make, pyInt]
  exact ⟨hb, (summary_division_by_zero_iff ctxAllStable).1 hb, hr,
    fun he => hr ((summary_division_by_zero_iff ctxScenarioB).2.mp he)⟩

/-- C10: an `InventoryItem` constructed without an explicit reorder threshold
gets `max(10, int(order_quantity * 0.2))`, which is never less than 10
however small the order quantity is. -/
theorem auto_reorder_threshold_formula (iid : String) (cs oq : Int) (uc : ℚ) :
    (InventoryItem.make iid cs oq uc none).reorder_threshold =
      max 10 (pyInt ((oq : ℚ) * (2/10))) ∧
    10 ≤ (InventoryItem.make iid cs oq uc none).reorder_threshold :=
  ⟨rfl, le_max_left _ _⟩

end LogisticsAgents
